import Mathlib

/-!
Shallow embedding of the Lens proxy core (`src/main/lens-proxy.ts`).

The TypeScript module wires an HTTP reverse proxy with three pieces of
behaviour that the specification talks about:

* `handleRequest` — dispatch: cluster lookup, readiness, target resolution,
  forwarding vs internal routing;
* the `proxyRes` hook — 502 friendly-message translation and retry-ledger
  cleanup;
* the `proxy error` hook — retry scheduling and the generic 500 fallback.

State of the `LensProxy` class that these touch is the `closed` flag and the
`retryCounters` map; we model the map as an association list with unique keys
(the invariant a JS `Map` maintains).  JavaScript string operations used by
the source (`startsWith`, `replace` with a string pattern, i.e. first
occurrence only, and `includes`) are modelled on character lists.
-/

namespace LensProxy

/-- JS `s.startsWith(p)`: `p` is a character-level prefix of `s`. -/
def jsStartsWith (s p : String) : Bool := p.data.isPrefixOf s.data

/-- First-occurrence replacement on character lists: JS
`s.replace(pat, repl)` with a string pattern replaces only the leftmost
occurrence of `pat`. -/
def replaceFirstList (pat repl : List Char) : List Char → List Char
  | [] => if pat.isEmpty then repl else []
  | c :: cs =>
    if pat.isPrefixOf (c :: cs) then repl ++ (c :: cs).drop pat.length
    else c :: replaceFirstList pat repl cs

/-- JS `s.replace(pat, repl)` for a string pattern (first occurrence only). -/
def jsReplaceFirst (s pat repl : String) : String :=
  ⟨replaceFirstList pat.data repl.data s.data⟩

/-- Occurrence check on character lists: some tail of `l` starts with `pat`. -/
def listIncludes (pat : List Char) : List Char → Bool
  | [] => pat.isEmpty
  | c :: cs => pat.isPrefixOf (c :: cs) || listIncludes pat cs

/-- JS `s.includes(pat)`. -/
def jsIncludes (s pat : String) : Bool := listIncludes pat.data s.data

/-- The parts of `http.IncomingMessage` the proxy core reads or mutates:
method, `headers.host`, `url`, and the `authorization` header (which
`getProxyTarget` deletes). -/
structure Request where
  method : String
  host : String
  url : String
  authorization : Option String
  deriving Repr, DecidableEq

/-- The Request Identity Key `` `${req.headers.host}${req.url}` ``. -/
def retryKey (req : Request) : String := req.host ++ req.url

/-- The `retryCounters : Map<string, number>` field, as an association list.
A JS `Map` keeps at most one entry per key; theorems that need that fact
take a `Nodup` hypothesis on the key column. -/
abbrev Ledger := List (String × Nat)

/-- Model of `Map.get` (first matching entry; `none` when absent). -/
def ledgerGet : Ledger → String → Option Nat
  | [], _ => none
  | (k', v) :: rest, k => if k' = k then some v else ledgerGet rest k

/-- Model of `Map.set`: overwrite the existing entry for the key, else append. -/
def ledgerSet : Ledger → String → Nat → Ledger
  | [], k, v => [(k, v)]
  | (k', v') :: rest, k, v =>
    if k' = k then (k, v) :: rest else (k', v') :: ledgerSet rest k v

/-- Model of `Map.delete`: remove the entry for the key (the first, and with unique
keys the only, match). -/
def ledgerDelete : Ledger → String → Ledger
  | [], _ => []
  | (k', v') :: rest, k =>
    if k' = k then rest else (k', v') :: ledgerDelete rest k

/-- Model of `Map.has`. -/
def ledgerHas (l : Ledger) (k : String) : Bool := (ledgerGet l k).isSome

/-- The mutable state of the `LensProxy` instance that the hooks consult:
the `closed` flag set by `close()` and the retry-counter map. -/
structure ProxyState where
  closed : Bool
  retryCounters : Ledger
  deriving Repr, DecidableEq

/-- A resolved backend endpoint (`httpProxy.ServerOptions`); opaque here. -/
structure ProxyTarget where
  targetUrl : String
  deriving Repr, DecidableEq

/-- The `ContextHandler` collaborator: `getApiTarget(isWatchRequest)` and
`proxyServerError()` (a truthy custom message modelled as `some`). -/
structure ContextHandler where
  getApiTarget : Bool → ProxyTarget
  proxyServerError : Option String

/-- A Cluster Context as the proxy sees it: a handle owning a
`contextHandler`. -/
structure ClusterCtx where
  contextHandler : ContextHandler

/-- Model of `LensProxy.getProxyTarget`: when the url starts with the API prefix,
delete the authorization header, strip the prefix from the url (in place —
the returned request is the mutated one), compute the watch flag from the
rewritten url, and ask the context handler for a target; otherwise return
no target and leave the request untouched. -/
def getProxyTarget (pfx : String) (ch : ContextHandler) (req : Request) :
    Option ProxyTarget × Request :=
  if jsStartsWith req.url pfx then
    let req1 : Request :=
      { req with authorization := none, url := jsReplaceFirst req.url pfx "" }
    let isWatchRequest := jsIncludes req1.url "watch="
    (some (ch.getApiTarget isWatchRequest), req1)
  else
    (none, req)

/-- What `handleRequest` does with the pair `(req, res)`. -/
inductive DispatchOutcome where
  /-- Written directly: `res.statusCode = status; res.end(body)`. -/
  | direct (status : Nat) (body : String)
  /-- Forwarded: `proxy.web(req, res, target)`. -/
  | forwarded (t : ProxyTarget)
  /-- Routed internally: `router.route(cluster, req, res)`. -/
  | routed
  deriving Repr, DecidableEq

/-- Result of one `handleRequest` dispatch: the outcome, the request object
as it stands afterwards (mutations by `getProxyTarget` included), and
whether `contextHandler.ensureServer()` was awaited. -/
structure HandleResult where
  outcome : DispatchOutcome
  req : Request
  ensuredServer : Bool
  deriving Repr, DecidableEq

/-- Model of `LensProxy.handleRequest`: resolve the cluster (the caller passes what
`clusterManager.getClusterForRequest(req)` returned); absent → 503 with
empty body and nothing else; present → `ensureServer()`, resolve a target,
then forward or route internally.  The method touches neither `closed` nor
`retryCounters`, so the state is returned unchanged. -/
def handleRequest (pfx : String) (cluster? : Option ClusterCtx)
    (st : ProxyState) (req : Request) : HandleResult × ProxyState :=
  match cluster? with
  | none => (⟨.direct 503 "", req, false⟩, st)
  | some cluster =>
    match getProxyTarget pfx cluster.contextHandler req with
    | (some proxyTarget, req1) => (⟨.forwarded proxyTarget, req1, true⟩, st)
    | (none, req1) => (⟨.routed, req1, true⟩, st)

/-- A retry captured by `setTimeout` in the error hook: the key, the delay
`retryCount * 250`, and the `retryCount` value the closure read before
scheduling (the ledger is written only when the timer fires). -/
structure ScheduledRetry where
  key : String
  delayMs : Nat
  capturedCount : Nat
  deriving Repr, DecidableEq

/-- What one run of the `proxy.on("error", ...)` hook produces. -/
structure ErrorHookOutput where
  /-- The retry scheduled via `setTimeout`, if any. -/
  retry : Option ScheduledRetry
  /-- The `(status, content-type, body)` written to the original response. -/
  responseWrite : Option (Nat × String × String)
  deriving Repr, DecidableEq

/-- Body of the generic failure response. -/
def genericErrorBody : String := "Oops, something went wrong."

/-- The JS guard `!res.statusCode || res.statusCode >= 500`: response not
started, or already carrying a server-error status. -/
def statusAllowsRetry : Option Nat → Bool
  | none => true
  | some s => 500 ≤ s

/-- The `proxy.on("error", ...)` hook.  `hasTarget` is the truthiness of the
`target` argument, `resStatus` the status code on the original response (if
started).  Closed server: nothing at all.  Otherwise: with a target, a GET
method, an eligible status and a read count below 20, schedule a retry after
`count * 250` ms; then, in every case, write the generic 500 plain-text
response.  The hook itself never mutates the ledger. -/
def proxyErrorHook (st : ProxyState) (hasTarget : Bool) (req : Request)
    (resStatus : Option Nat) : ErrorHookOutput × ProxyState :=
  if st.closed then (⟨none, none⟩, st)
  else
    let retry :=
      if hasTarget ∧ req.method = "GET" ∧ statusAllowsRetry resStatus then
        let retryCounterKey := retryKey req
        let retryCount := (ledgerGet st.retryCounters retryCounterKey).getD 0
        let timeoutMs := retryCount * 250
        if retryCount < 20 then
          some ⟨retryCounterKey, timeoutMs, retryCount⟩
        else none
      else none
    (⟨retry, some (500, "text/plain", genericErrorBody)⟩, st)

/-- The body of the `setTimeout` callback scheduled by the error hook, up to
the re-entry into `handleRequest`: `retryCounters.set(key, retryCount + 1)`
with the count captured at scheduling time. -/
def fireScheduledRetry (st : ProxyState) (r : ScheduledRetry) : ProxyState :=
  { st with retryCounters := ledgerSet st.retryCounters r.key (r.capturedCount + 1) }

/-- What one run of the `proxy.on("proxyRes", ...)` hook produces. -/
structure ResHookOutput where
  /-- The `(status, content-type, body)` written in place of the backend
  response; `none` means the raw response passes through. -/
  responseWrite : Option (Nat × String × String)
  deriving Repr, DecidableEq

/-- The `proxy.on("proxyRes", ...)` hook.  `proxyStatus` is the backend
response status; `cluster?` is what `getClusterForRequest(req)` returns.
Status 502 with a cluster supplying a truthy custom server-error message:
write 502 with that message and return.  Otherwise non-GET requests return
immediately; GET requests whose key is in the ledger have the entry
deleted. -/
def proxyResHook (st : ProxyState) (proxyStatus : Nat)
    (cluster? : Option ClusterCtx) (req : Request) :
    ResHookOutput × ProxyState :=
  let tail : ResHookOutput × ProxyState :=
    if req.method = "GET" then
      let key := retryKey req
      if ledgerHas st.retryCounters key then
        (⟨none⟩, { st with retryCounters := ledgerDelete st.retryCounters key })
      else (⟨none⟩, st)
    else (⟨none⟩, st)
  if proxyStatus = 502 then
    match cluster? with
    | some cluster =>
      match cluster.contextHandler.proxyServerError with
      | some msg => (⟨some (502, "text/plain", msg)⟩, st)
      | none => tail
    | none => tail
  else tail

/-! ### Supporting lemmas about the ledger and the string model -/

theorem ledgerGet_set_self (l : Ledger) (k : String) (v : Nat) :
    ledgerGet (ledgerSet l k v) k = some v := by
  induction l with
  | nil => simp [ledgerSet, ledgerGet]
  | cons p rest ih =>
    obtain ⟨k', v'⟩ := p
    by_cases h : k' = k <;> simp [ledgerSet, ledgerGet, h, ih]

theorem ledgerGet_eq_none_of_not_mem (l : Ledger) (k : String)
    (h : k ∉ l.map Prod.fst) : ledgerGet l k = none := by
  induction l with
  | nil => rfl
  | cons p rest ih =>
    obtain ⟨k', v'⟩ := p
    simp only [List.map_cons, List.mem_cons] at h
    push_neg at h
    simp [ledgerGet, Ne.symm h.1, ih h.2]

theorem ledgerGet_delete_self (l : Ledger) (k : String)
    (h : (l.map Prod.fst).Nodup) : ledgerGet (ledgerDelete l k) k = none := by
  induction l with
  | nil => rfl
  | cons p rest ih =>
    obtain ⟨k', v'⟩ := p
    simp only [List.map_cons, List.nodup_cons] at h
    by_cases hk : k' = k
    · subst hk
      simp [ledgerDelete, ledgerGet_eq_none_of_not_mem rest k' h.1]
    · simp [ledgerDelete, hk, ledgerGet, ih h.2]

theorem isPrefixOf_nil_eq (p : List Char) (h : p.isPrefixOf ([] : List Char) = true) :
    p = [] := by
  cases p with
  | nil => rfl
  | cons a as => simp [List.isPrefixOf] at h

/-- Stripping a pattern that the list starts with drops exactly that many
characters. -/
theorem replaceFirstList_isPrefixOf (pat l : List Char)
    (h : pat.isPrefixOf l = true) :
    replaceFirstList pat [] l = l.drop pat.length := by
  cases l with
  | nil =>
    have hp := isPrefixOf_nil_eq pat h
    subst hp
    rfl
  | cons c cs => simp [replaceFirstList, h]

/-- Stripping via `url.replace(pfx, "")` removes exactly the leading prefix when the url
starts with it. -/
theorem append_jsReplaceFirst_of_startsWith (s p : String)
    (h : jsStartsWith s p = true) : p ++ jsReplaceFirst s p "" = s := by
  unfold jsStartsWith at h
  have hpre : p.data <+: s.data := List.isPrefixOf_iff_prefix.mp h
  apply String.ext
  rw [String.data_append]
  show p.data ++ replaceFirstList p.data [] s.data = s.data
  rw [replaceFirstList_isPrefixOf _ _ h]
  exact List.prefix_iff_eq_append.mp hpre

/-- The occurrence check agrees with the infix relation on characters. -/
theorem listIncludes_eq_true_iff (pat l : List Char) :
    listIncludes pat l = true ↔ pat <:+: l := by
  induction l with
  | nil => simp [listIncludes, List.isEmpty_iff]
  | cons c cs ih =>
    simp [listIncludes, Bool.or_eq_true, List.isPrefixOf_iff_prefix, ih,
      List.infix_cons_iff]

/-- JS `s.includes(pat)` agrees with the infix relation on the underlying
character lists. -/
theorem jsIncludes_eq_true_iff (s pat : String) :
    jsIncludes s pat = true ↔ pat.data <:+: s.data :=
  listIncludes_eq_true_iff pat.data s.data

/-! ### Claim theorems -/

/-- C1: for a GET request failing at the transport level with a resolved
target while the server is not closed, if the response has not started or
carries a status ≥ 500 and the ledger count `n` for the request's key
(host header + url) is below 20, the error hook schedules a retry with
delay `n * 250` ms, and firing that retry sets the ledger count for the
key to `n + 1`. -/
theorem errorHook_schedules_retry_and_fire_increments
    (st : ProxyState) (req : Request) (resStatus : Option Nat) (n : Nat)
    (hclosed : st.closed = false)
    (hmethod : req.method = "GET")
    (hstatus : statusAllowsRetry resStatus = true)
    (hn : (ledgerGet st.retryCounters (retryKey req)).getD 0 = n)
    (hlt : n < 20) :
    (proxyErrorHook st true req resStatus).1.retry =
      some ⟨retryKey req, n * 250, n⟩ ∧
    ledgerGet (fireScheduledRetry st ⟨retryKey req, n * 250, n⟩).retryCounters
        (retryKey req) = some (n + 1) := by
  constructor
  · simp [proxyErrorHook, hclosed, hmethod, hstatus, hn, hlt]
  · simp [fireScheduledRetry, ledgerGet_set_self]

/-- C1 witness: a concrete GET failure on an empty ledger schedules an
immediate retry (count 0, delay 0) and the fired retry stores count 1. -/
theorem errorHook_schedules_retry_and_fire_increments_witness :
    (⟨false, []⟩ : ProxyState).closed = false ∧
    (⟨"GET", "h", "/u", none⟩ : Request).method = "GET" ∧
    statusAllowsRetry none = true ∧
    (ledgerGet (⟨false, []⟩ : ProxyState).retryCounters
        (retryKey ⟨"GET", "h", "/u", none⟩)).getD 0 = 0 ∧
    0 < 20 ∧
    ((proxyErrorHook ⟨false, []⟩ true ⟨"GET", "h", "/u", none⟩ none).1.retry =
        some ⟨retryKey ⟨"GET", "h", "/u", none⟩, 0 * 250, 0⟩ ∧
      ledgerGet (fireScheduledRetry ⟨false, []⟩
          ⟨retryKey ⟨"GET", "h", "/u", none⟩, 0 * 250, 0⟩).retryCounters
        (retryKey ⟨"GET", "h", "/u", none⟩) = some 1) :=
  ⟨rfl, rfl, rfl, rfl, by decide,
    errorHook_schedules_retry_and_fire_increments ⟨false, []⟩
      ⟨"GET", "h", "/u", none⟩ none 0 rfl rfl rfl rfl (by decide)⟩

/-- C2: once the ledger count for the key has reached 20, the error hook
schedules no retry, writes the generic 500 plain-text response, and leaves
the ledger — including the capped entry — untouched. -/
theorem errorHook_cap_no_retry_generic_500
    (st : ProxyState) (req : Request) (resStatus : Option Nat)
    (hasTarget : Bool) (n : Nat)
    (hclosed : st.closed = false)
    (hn : (ledgerGet st.retryCounters (retryKey req)).getD 0 = n)
    (hcap : 20 ≤ n) :
    (proxyErrorHook st hasTarget req resStatus).1.retry = none ∧
    (proxyErrorHook st hasTarget req resStatus).1.responseWrite =
      some (500, "text/plain", genericErrorBody) ∧
    (proxyErrorHook st hasTarget req resStatus).2.retryCounters =
      st.retryCounters ∧
    ledgerGet (proxyErrorHook st hasTarget req resStatus).2.retryCounters
      (retryKey req) = some n := by
  have hlt : ¬ (ledgerGet st.retryCounters (retryKey req)).getD 0 < 20 := by
    omega
  have hsome : ledgerGet st.retryCounters (retryKey req) = some n := by
    cases hget : ledgerGet st.retryCounters (retryKey req) with
    | none => rw [hget] at hn; simp at hn; omega
    | some m => rw [hget] at hn; simpa [hn] using hn ▸ rfl
  refine ⟨?_, ?_, ?_, ?_⟩
  · by_cases hcond : hasTarget = true ∧ req.method = "GET" ∧
        statusAllowsRetry resStatus = true
    · simp [proxyErrorHook, hclosed, hcond.1, hcond.2.1, hcond.2.2, hlt]
    · simp only [proxyErrorHook, hclosed, Bool.false_eq_true, if_false]
      rw [if_neg hcond]
  · simp [proxyErrorHook, hclosed]
  · simp [proxyErrorHook, hclosed]
  · simp [proxyErrorHook, hclosed, hsome]

/-- C2 witness: with the counter for the key at 20, no retry is scheduled,
the generic 500 is written, and the entry stays at 20. -/
theorem errorHook_cap_no_retry_generic_500_witness :
    (⟨false, [("h/u", 20)]⟩ : ProxyState).closed = false ∧
    (ledgerGet (⟨false, [("h/u", 20)]⟩ : ProxyState).retryCounters
        (retryKey ⟨"GET", "h", "/u", none⟩)).getD 0 = 20 ∧
    20 ≤ 20 ∧
    ((proxyErrorHook ⟨false, [("h/u", 20)]⟩ true ⟨"GET", "h", "/u", none⟩
          none).1.retry = none ∧
      (proxyErrorHook ⟨false, [("h/u", 20)]⟩ true ⟨"GET", "h", "/u", none⟩
          none).1.responseWrite = some (500, "text/plain", genericErrorBody) ∧
      (proxyErrorHook ⟨false, [("h/u", 20)]⟩ true ⟨"GET", "h", "/u", none⟩
          none).2.retryCounters = [("h/u", 20)] ∧
      ledgerGet (proxyErrorHook ⟨false, [("h/u", 20)]⟩ true
          ⟨"GET", "h", "/u", none⟩ none).2.retryCounters
        (retryKey ⟨"GET", "h", "/u", none⟩) = some 20) :=
  ⟨rfl, by decide, by decide,
    errorHook_cap_no_retry_generic_500 ⟨false, [("h/u", 20)]⟩
      ⟨"GET", "h", "/u", none⟩ none true 20 rfl (by decide) (by decide)⟩

/-- C3 counterexample: on a concrete GET failure (server open, target
resolved, empty ledger) the error hook both schedules a retry and still
writes the generic 500 to the original response — contradicting the claim
that a scheduled retry suppresses the hook's generic 500 write. -/
theorem errorHook_writes_500_despite_retry_cex :
    ((proxyErrorHook ⟨false, []⟩ true ⟨"GET", "h", "/u", none⟩ none).1.retry
        ).isSome = true ∧
    (proxyErrorHook ⟨false, []⟩ true ⟨"GET", "h", "/u", none⟩
        none).1.responseWrite = some (500, "text/plain", genericErrorBody) := by
  constructor
  · rfl
  · rfl

/-- C3 amended: whenever the server is not closed, the error hook writes
the generic 500 plain-text response to the original response
unconditionally, whether or not a retry was scheduled. -/
theorem errorHook_always_writes_generic_500
    (st : ProxyState) (hasTarget : Bool) (req : Request)
    (resStatus : Option Nat) (hclosed : st.closed = false) :
    (proxyErrorHook st hasTarget req resStatus).1.responseWrite =
      some (500, "text/plain", genericErrorBody) := by
  simp [proxyErrorHook, hclosed]

/-- C3 amended witness: a concrete open-server failure gets the generic
500 write. -/
theorem errorHook_always_writes_generic_500_witness :
    (⟨false, []⟩ : ProxyState).closed = false ∧
    (proxyErrorHook ⟨false, []⟩ false ⟨"POST", "h", "/u", none⟩
        (some 200)).1.responseWrite =
      some (500, "text/plain", genericErrorBody) :=
  ⟨rfl, errorHook_always_writes_generic_500 ⟨false, []⟩ false
    ⟨"POST", "h", "/u", none⟩ (some 200) rfl⟩

/-- C4 counterexample: a delivered 502 response for a GET request whose key
is in the ledger, with the cluster supplying a custom server-error message,
returns from the response hook before the cleanup code runs — the ledger
entry is NOT removed, contradicting the claim that every delivered response
for a present key removes the entry. -/
theorem resHook_502_custom_message_keeps_entry_cex :
    ledgerHas (⟨false, [("h/u", 3)]⟩ : ProxyState).retryCounters "h/u" = true ∧
    ledgerGet (proxyResHook ⟨false, [("h/u", 3)]⟩ 502
        (some ⟨⟨fun _ => ⟨"t"⟩, some "backend starting"⟩⟩)
        ⟨"GET", "h", "/u", none⟩).2.retryCounters "h/u" = some 3 := by
  constructor
  · rfl
  · rfl

/-- C4 amended: for every delivered response for a GET request whose key is
present in the ledger, the response hook removes the entry, EXCEPT when the
response status is 502 and the Cluster Context supplies a custom
server-error message (that branch returns before the cleanup).  Non-GET
deliveries never remove entries (they return before the cleanup as well). -/
theorem resHook_removes_entry_unless_502_custom
    (st : ProxyState) (status : Nat) (cluster? : Option ClusterCtx)
    (req : Request)
    (hnodup : (st.retryCounters.map Prod.fst).Nodup)
    (hmethod : req.method = "GET")
    (hnc : status ≠ 502 ∨
      (cluster?.bind fun c => c.contextHandler.proxyServerError) = none)
    (hpresent : ledgerHas st.retryCounters (retryKey req) = true) :
    ledgerGet (proxyResHook st status cluster? req).2.retryCounters
      (retryKey req) = none := by
  have htail :
      (if req.method = "GET" then
        if ledgerHas st.retryCounters (retryKey req) then
          ((⟨none⟩ : ResHookOutput),
            { st with retryCounters :=
                ledgerDelete st.retryCounters (retryKey req) })
        else ((⟨none⟩ : ResHookOutput), st)
      else ((⟨none⟩ : ResHookOutput), st)).2.retryCounters =
        ledgerDelete st.retryCounters (retryKey req) := by
    simp [hmethod, hpresent]
  by_cases h502 : status = 502
  · rcases hnc with h | h
    · exact absurd h502 h
    · cases hcl : cluster? with
      | none =>
        simp only [proxyResHook, hcl, h502, if_true]
        rw [htail]
        exact ledgerGet_delete_self _ _ hnodup
      | some c =>
        have hmsg : c.contextHandler.proxyServerError = none := by
          rw [hcl] at h
          simpa using h
        simp only [proxyResHook, hcl, h502, if_true, hmsg]
        rw [htail]
        exact ledgerGet_delete_self _ _ hnodup
  · simp only [proxyResHook, if_neg h502]
    rw [htail]
    exact ledgerGet_delete_self _ _ hnodup

/-- C4 amended witness: an ordinary 200 delivery for a GET with the key at
count 2 removes the entry. -/
theorem resHook_removes_entry_unless_502_custom_witness :
    ((((⟨false, [("h/u", 2)]⟩ : ProxyState)).retryCounters.map
        Prod.fst).Nodup) ∧
    (⟨"GET", "h", "/u", none⟩ : Request).method = "GET" ∧
    ((200 : Nat) ≠ 502 ∨
      ((none : Option ClusterCtx).bind
        fun c => c.contextHandler.proxyServerError) = none) ∧
    ledgerHas (⟨false, [("h/u", 2)]⟩ : ProxyState).retryCounters
      (retryKey ⟨"GET", "h", "/u", none⟩) = true ∧
    ledgerGet (proxyResHook ⟨false, [("h/u", 2)]⟩ 200 none
        ⟨"GET", "h", "/u", none⟩).2.retryCounters
      (retryKey ⟨"GET", "h", "/u", none⟩) = none :=
  ⟨by decide, rfl, Or.inl (by decide), by decide,
    resHook_removes_entry_unless_502_custom ⟨false, [("h/u", 2)]⟩ 200 none
      ⟨"GET", "h", "/u", none⟩ (by decide) rfl (Or.inl (by decide))
      (by decide)⟩

/-- C5: for a non-GET request, neither hook touches the retry-counter map:
the response hook returns it unchanged, the error hook schedules no retry
(so no later `set` for it fires) and returns the map unchanged. -/
theorem nonGET_never_touches_ledger
    (st : ProxyState) (status : Nat) (cluster? : Option ClusterCtx)
    (req : Request) (hasTarget : Bool) (resStatus : Option Nat)
    (hmethod : req.method ≠ "GET") :
    (proxyResHook st status cluster? req).2.retryCounters =
      st.retryCounters ∧
    (proxyErrorHook st hasTarget req resStatus).1.retry = none ∧
    (proxyErrorHook st hasTarget req resStatus).2.retryCounters =
      st.retryCounters := by
  refine ⟨?_, ?_, ?_⟩
  · unfold proxyResHook
    by_cases h502 : status = 502
    · cases cluster? with
      | none => simp [h502, hmethod]
      | some c =>
        cases hmsg : c.contextHandler.proxyServerError <;>
          simp [h502, hmethod, hmsg]
    · simp [h502, hmethod]
  · by_cases hclosed : st.closed
    · simp [proxyErrorHook, hclosed]
    · simp only [proxyErrorHook, hclosed, Bool.false_eq_true, if_false]
      rw [if_neg fun hc => hmethod hc.2.1]
  · by_cases hclosed : st.closed <;> simp [proxyErrorHook, hclosed]

/-- C5 witness: a failing POST delivery at 502 with a key coincidentally in
the ledger leaves the map unchanged and schedules nothing. -/
theorem nonGET_never_touches_ledger_witness :
    (⟨"POST", "h", "/u", none⟩ : Request).method ≠ "GET" ∧
    ((proxyResHook ⟨false, [("h/u", 4)]⟩ 502 none
        ⟨"POST", "h", "/u", none⟩).2.retryCounters = [("h/u", 4)] ∧
      (proxyErrorHook ⟨false, [("h/u", 4)]⟩ true ⟨"POST", "h", "/u", none⟩
          none).1.retry = none ∧
      (proxyErrorHook ⟨false, [("h/u", 4)]⟩ true ⟨"POST", "h", "/u", none⟩
          none).2.retryCounters = [("h/u", 4)]) :=
  ⟨by decide,
    nonGET_never_touches_ledger ⟨false, [("h/u", 4)]⟩ 502 none
      ⟨"POST", "h", "/u", none⟩ true none (by decide)⟩

/-- C6: dispatch for a request whose cluster lookup yields no Cluster
Context responds 503 with an empty body, performs no readiness check, no
target resolution, no forwarding and no routing, leaves the request object
untouched, and leaves the proxy state (the Retry Ledger included)
unchanged. -/
theorem handleRequest_unknown_cluster_503
    (pfx : String) (st : ProxyState) (req : Request) :
    handleRequest pfx none st req = (⟨.direct 503 "", req, false⟩, st) := rfl

/-- When the url does not start with the prefix, target resolution yields
no target and leaves the request untouched. -/
theorem getProxyTarget_no_match (pfx : String) (ch : ContextHandler)
    (req : Request) (h : jsStartsWith req.url pfx = false) :
    getProxyTarget pfx ch req = (none, req) := by
  simp [getProxyTarget, h]

/-- C7: for a request whose url starts with the API prefix, target
resolution deletes the authorization header, removes the prefix from the
url (the rewritten url appended to the prefix gives back the original),
asks the Context Handler for a target with the watch flag computed from the
rewritten url, and that flag is true exactly when the rewritten url
contains the substring "watch=". -/
theorem getProxyTarget_api_request (pfx : String) (ch : ContextHandler)
    (req : Request) (h : jsStartsWith req.url pfx = true) :
    (getProxyTarget pfx ch req).2.authorization = none ∧
    pfx ++ (getProxyTarget pfx ch req).2.url = req.url ∧
    (getProxyTarget pfx ch req).1 =
      some (ch.getApiTarget
        (jsIncludes (getProxyTarget pfx ch req).2.url "watch=")) ∧
    (jsIncludes (getProxyTarget pfx ch req).2.url "watch=" = true ↔
      "watch=".data <:+: (getProxyTarget pfx ch req).2.url.data) := by
  have hreq2 : (getProxyTarget pfx ch req).2 =
      { req with authorization := none,
                 url := jsReplaceFirst req.url pfx "" } := by
    simp [getProxyTarget, h]
  refine ⟨?_, ?_, ?_, ?_⟩
  · rw [hreq2]
  · rw [hreq2]
    exact append_jsReplaceFirst_of_startsWith req.url pfx h
  · simp [getProxyTarget, h]
  · exact jsIncludes_eq_true_iff _ _

/-- C7 witness: a concrete API-prefixed watch request gets its token
stripped, its prefix removed, and the watch flag set. -/
theorem getProxyTarget_api_request_witness :
    jsStartsWith
      (⟨"GET", "h", "/api-kube/ns?watch=true", some "tok"⟩ : Request).url
      "/api-kube" = true ∧
    ((getProxyTarget "/api-kube" ⟨fun _ => ⟨"t"⟩, none⟩
        ⟨"GET", "h", "/api-kube/ns?watch=true", some "tok"⟩).2.authorization
        = none ∧
      "/api-kube" ++ (getProxyTarget "/api-kube" ⟨fun _ => ⟨"t"⟩, none⟩
          ⟨"GET", "h", "/api-kube/ns?watch=true", some "tok"⟩).2.url =
        (⟨"GET", "h", "/api-kube/ns?watch=true", some "tok"⟩ : Request).url ∧
      (getProxyTarget "/api-kube" ⟨fun _ => ⟨"t"⟩, none⟩
          ⟨"GET", "h", "/api-kube/ns?watch=true", some "tok"⟩).1 =
        some ((⟨fun _ => ⟨"t"⟩, none⟩ : ContextHandler).getApiTarget
          (jsIncludes (getProxyTarget "/api-kube" ⟨fun _ => ⟨"t"⟩, none⟩
            ⟨"GET", "h", "/api-kube/ns?watch=true", some "tok"⟩).2.url
            "watch=")) ∧
      (jsIncludes (getProxyTarget "/api-kube" ⟨fun _ => ⟨"t"⟩, none⟩
          ⟨"GET", "h", "/api-kube/ns?watch=true", some "tok"⟩).2.url
          "watch=" = true ↔
        "watch=".data <:+: (getProxyTarget "/api-kube" ⟨fun _ => ⟨"t"⟩, none⟩
          ⟨"GET", "h", "/api-kube/ns?watch=true", some "tok"⟩).2.url.data)) :=
  ⟨by decide,
    getProxyTarget_api_request "/api-kube" ⟨fun _ => ⟨"t"⟩, none⟩
      ⟨"GET", "h", "/api-kube/ns?watch=true", some "tok"⟩ (by decide)⟩

/-- C8: for a request whose url does not start with the API prefix, target
resolution yields no target and dispatch hands the (unmutated) request to
the internal router; it is never forwarded through the proxy transport. -/
theorem nonApi_request_routed_internally (pfx : String) (st : ProxyState)
    (req : Request) (cluster : ClusterCtx)
    (h : jsStartsWith req.url pfx = false) :
    (getProxyTarget pfx cluster.contextHandler req).1 = none ∧
    (handleRequest pfx (some cluster) st req).1.outcome = .routed ∧
    (handleRequest pfx (some cluster) st req).1.req = req := by
  have hg := getProxyTarget_no_match pfx cluster.contextHandler req h
  refine ⟨by rw [hg], ?_, ?_⟩ <;> simp [handleRequest, hg]

/-- C8 witness: a concrete non-API request is routed internally. -/
theorem nonApi_request_routed_internally_witness :
    jsStartsWith (⟨"GET", "h", "/app", none⟩ : Request).url "/api-kube"
      = false ∧
    ((getProxyTarget "/api-kube"
        (⟨⟨fun _ => ⟨"t"⟩, none⟩⟩ : ClusterCtx).contextHandler
        ⟨"GET", "h", "/app", none⟩).1 = none ∧
      (handleRequest "/api-kube" (some ⟨⟨fun _ => ⟨"t"⟩, none⟩⟩)
          ⟨false, []⟩ ⟨"GET", "h", "/app", none⟩).1.outcome = .routed ∧
      (handleRequest "/api-kube" (some ⟨⟨fun _ => ⟨"t"⟩, none⟩⟩)
          ⟨false, []⟩ ⟨"GET", "h", "/app", none⟩).1.req =
        ⟨"GET", "h", "/app", none⟩) :=
  ⟨by decide,
    nonApi_request_routed_internally "/api-kube" ⟨false, []⟩
      ⟨"GET", "h", "/app", none⟩ ⟨⟨fun _ => ⟨"t"⟩, none⟩⟩ (by decide)⟩

/-- C9: on a backend 502, the response hook writes 502 with the Cluster
Context's custom server-error message exactly when one is supplied;
otherwise it writes nothing and the raw backend response passes through. -/
theorem resHook_502_custom_message
    (st : ProxyState) (cluster? : Option ClusterCtx) (req : Request) :
    (proxyResHook st 502 cluster? req).1.responseWrite =
      (cluster?.bind fun c => c.contextHandler.proxyServerError).map
        fun msg => (502, "text/plain", msg) := by
  unfold proxyResHook
  cases cluster? with
  | none =>
    by_cases hm : req.method = "GET"
    · by_cases hh : ledgerHas st.retryCounters (retryKey req) = true <;>
        simp [hm, hh]
    · simp [hm]
  | some c =>
    cases hmsg : c.contextHandler.proxyServerError with
    | some msg => simp [hmsg]
    | none =>
      by_cases hm : req.method = "GET"
      · by_cases hh : ledgerHas st.retryCounters (retryKey req) = true <;>
          simp [hmsg, hm, hh]
      · simp [hmsg, hm]

/-- C10: `getProxyTarget` rewrites the request url in place, so it is not
idempotent — once the prefix has been stripped and the stripped url no
longer starts with the prefix, a second resolution on the mutated request
yields no target, and the scheduled retry (which re-runs dispatch on that
same mutated request, in whatever state the proxy is in by then) hands the
request to the internal router. -/
theorem getProxyTarget_not_idempotent_retry_routed
    (pfx : String) (cluster : ClusterCtx) (st' : ProxyState) (req : Request)
    (h1 : jsStartsWith req.url pfx = true)
    (h2 : jsStartsWith (getProxyTarget pfx cluster.contextHandler req).2.url
      pfx = false) :
    (getProxyTarget pfx cluster.contextHandler
        (getProxyTarget pfx cluster.contextHandler req).2).1 = none ∧
    (handleRequest pfx (some cluster) st'
        (getProxyTarget pfx cluster.contextHandler req).2).1.outcome =
      .routed := by
  have hg := getProxyTarget_no_match pfx cluster.contextHandler
    (getProxyTarget pfx cluster.contextHandler req).2 h2
  refine ⟨by rw [hg], ?_⟩
  simp [handleRequest, hg]

/-- C10 witness: stripping "/api-kube" from a concrete API url leaves a url
that no longer matches, so re-dispatching the mutated request is routed
internally. -/
theorem getProxyTarget_not_idempotent_retry_routed_witness :
    jsStartsWith
      (⟨"GET", "h", "/api-kube/pods", none⟩ : Request).url "/api-kube"
      = true ∧
    jsStartsWith (getProxyTarget "/api-kube"
        (⟨⟨fun _ => ⟨"t"⟩, none⟩⟩ : ClusterCtx).contextHandler
        ⟨"GET", "h", "/api-kube/pods", none⟩).2.url "/api-kube" = false ∧
    ((getProxyTarget "/api-kube"
        (⟨⟨fun _ => ⟨"t"⟩, none⟩⟩ : ClusterCtx).contextHandler
        (getProxyTarget "/api-kube"
          (⟨⟨fun _ => ⟨"t"⟩, none⟩⟩ : ClusterCtx).contextHandler
          ⟨"GET", "h", "/api-kube/pods", none⟩).2).1 = none ∧
      (handleRequest "/api-kube" (some ⟨⟨fun _ => ⟨"t"⟩, none⟩⟩)
          ⟨false, [("h/pods", 1)]⟩
          (getProxyTarget "/api-kube"
            (⟨⟨fun _ => ⟨"t"⟩, none⟩⟩ : ClusterCtx).contextHandler
            ⟨"GET", "h", "/api-kube/pods", none⟩).2).1.outcome = .routed) :=
  ⟨by decide, by decide,
    getProxyTarget_not_idempotent_retry_routed "/api-kube"
      ⟨⟨fun _ => ⟨"t"⟩, none⟩⟩ ⟨false, [("h/pods", 1)]⟩
      ⟨"GET", "h", "/api-kube/pods", none⟩ (by decide) (by decide)⟩

end LensProxy
